import Mathlib

/-!
DLev Preset Companion — verification of the core components.

Shallow embedding of `src/dlev_preset_companion.py`:

* the rate-limited dispatcher (`run_dlin`, `run_dlin_knob`, the global
  `_last_update_time` throttle timestamp),
* the formant mapping engine (`get_profile_params`, `map_xy_to_formants`,
  `hz_to_knob_value`, the tilt computation of `apply_voice_from_xy`),
* the spectral analyzer (`analyze_wav_profile`: channel down-mix, Hann
  window, real FFT, centroid / low-frequency ratio, normalized XY).

Python floats are modelled as `ℚ` in the pure mapping engine and as `ℝ` in
the analyzer (whose spectrum involves `cos`/`exp`); `int(round(·))` is
modelled by `pyround`, Python 3's round-half-to-even.
-/

namespace DLev

/-- Source helper `clamp(x, lo, hi)`: `max(lo, min(hi, x))`. -/
def clamp {α : Type} [LinearOrder α] (x lo hi : α) : α := max lo (min hi x)

/-- Python 3 `round` (banker's rounding, ties to even), composed with `int`:
the integer nearest to `q`, ties resolved to the even integer. -/
def pyround (q : ℚ) : ℤ :=
  if q - ⌊q⌋ < 1/2 then ⌊q⌋
  else if 1/2 < q - ⌊q⌋ then ⌊q⌋ + 1
  else if ⌊q⌋ % 2 = 0 then ⌊q⌋ else ⌊q⌋ + 1

/-- Python `str.lower()` for the ASCII profile names used by the source
(`Char.toLower` lower-cases exactly the basic latin letters). -/
def strLower (s : String) : String := ⟨s.data.map Char.toLower⟩

-- sanity checks
example : strLower "Countertenor" = "countertenor" := by decide
example : pyround 8 = 8 := by norm_num [pyround]
example : pyround (5/2) = 2 := by norm_num [pyround]
example : pyround (7/2) = 4 := by norm_num [pyround]
example : pyround (-3/2) = -2 := by norm_num [pyround]

/-! ## Rate-limited parameter dispatcher

`run_dlin_knob` (source lines 58–83): the throttled channel.  Times are in
seconds (Python `time.time()`); the guard is `(now - _last_update_time) *
1000 < UPDATE_INTERVAL_MS`.  On acceptance the global `_last_update_time`
is assigned `now` *before* the subprocess call, so a transmission failure
(caught by the `try`/`except`) still leaves the timestamp updated.
`sendOk` abstracts whether the external `d-lin` invocation succeeds. -/

/-- The constant `UPDATE_INTERVAL_MS = 150` (source line 25). -/
def UPDATE_INTERVAL_MS : ℚ := 150

/-- Result of one `run_dlin_knob` call: whether the update cleared the
throttle gate, whether the device actually received it, and the value of
`_last_update_time` after the call. -/
structure KnobCallResult where
  accepted : Bool
  delivered : Bool
  last : ℚ
deriving Repr

/-- Model of `run_dlin_knob(pkv_str)` as a state transformer on `_last_update_time`
(the pkv payload itself is irrelevant to the throttle).  `now` is the value
of `time.time()` at the call, `last` the current `_last_update_time`. -/
def run_dlin_knob (now : ℚ) (sendOk : Bool) (last : ℚ) : KnobCallResult :=
  if (now - last) * 1000 < UPDATE_INTERVAL_MS then ⟨false, false, last⟩
  else ⟨true, sendOk, now⟩

/-- Model of `run_dlin(args)` (source lines 34–55): the immediate channel.  It never
consults or writes `_last_update_time`; the subprocess is always invoked,
i.e. the command is always forwarded. -/
def run_dlin (args : List String) : Bool := true

/-- One call into the dispatcher: either an immediate `run_dlin` command
(dump / pump / copy, carrying its argv) or a throttled `run_dlin_knob`
update (carrying the wall-clock time of the call and the pkv string). -/
inductive DEvent
  | imm (args : List String)
  | knob (now : ℚ) (pkv : String)

/-- Whether an event is an immediate-channel command. -/
def DEvent.isImm : DEvent → Bool
  | .imm _ => true
  | .knob _ _ => false

/-- One dispatcher step: returns (forwarded-to-device?, new throttle
timestamp).  Immediate commands go through `run_dlin`; knob updates go
through `run_dlin_knob`.  Transmission success is immaterial to both the
forwarding decision and the state, so it is fixed to `true` here. -/
def dispatchStep (e : DEvent) (s : ℚ) : Bool × ℚ :=
  match e with
  | .imm args => (run_dlin args, s)
  | .knob now _ => ((run_dlin_knob now true s).accepted, (run_dlin_knob now true s).last)

/-- Run a sequence of dispatcher calls from throttle timestamp `s`,
collecting the per-call forwarded flags and the final timestamp. -/
def dispatchTrace : List DEvent → ℚ → List Bool × ℚ
  | [], s => ([], s)
  | e :: es, s =>
    let r := dispatchStep e s
    let rest := dispatchTrace es r.2
    (r.1 :: rest.1, rest.2)

/-- A burst of throttled knob calls at the given times (flags of
`run_dlin_knob` acceptances plus the final `_last_update_time`). -/
def knobBurst : List ℚ → ℚ → List Bool × ℚ
  | [], s => ([], s)
  | t :: ts, s =>
    let r := run_dlin_knob t true s
    let rest := knobBurst ts r.last
    (r.accepted :: rest.1, rest.2)

/-- Call times of a burst of `N` calls spaced exactly 10 ms (= 1/100 s)
apart, starting at time `t0` (seconds). -/
def burstTimes (N : ℕ) (t0 : ℚ) : List ℚ :=
  (List.range N).map (fun i => t0 + i / 100)

/-! ## Formant mapping engine -/

/-- The four formant ranges of `get_profile_params` (Hz). -/
structure FormantProfile where
  F1_min : ℚ
  F1_max : ℚ
  F2_min : ℚ
  F2_max : ℚ
  F3_min : ℚ
  F3_max : ℚ
  F4_min : ℚ
  F4_max : ℚ
deriving Repr, DecidableEq

/-- Catalog lookup `get_profile_params(profile_name)` (source lines 104–159): the voice
archetype catalog, matched on `profile_name.lower()` with the Neutral
profile as the fallback branch. -/
def get_profile_params (profile_name : String) : FormantProfile :=
  let p := strLower profile_name
  if p = "bass" then ⟨300, 650, 700, 1200, 1700, 2400, 2200, 3200⟩
  else if p = "baritone" then ⟨330, 700, 800, 1350, 1800, 2500, 2300, 3400⟩
  else if p = "tenor" then ⟨380, 750, 900, 1500, 1900, 2600, 2400, 3400⟩
  else if p = "alto" then ⟨400, 800, 1000, 1700, 2100, 2900, 2600, 3500⟩
  else if p = "mezzo" then ⟨420, 850, 1100, 1800, 2200, 3000, 2700, 3600⟩
  else if p = "soprano" then ⟨450, 900, 1200, 2000, 2400, 3100, 2800, 3700⟩
  else ⟨360, 780, 850, 1500, 1900, 2700, 2400, 3400⟩

/-- Output of `map_xy_to_formants`: formant frequencies (Hz), levels and
resonances. -/
structure FormantParams where
  F1 : ℚ
  F2 : ℚ
  F3 : ℚ
  F4 : ℚ
  L1 : ℤ
  L2 : ℤ
  L3 : ℤ
  L4 : ℤ
  R1 : ℤ
  R2 : ℤ
  R3 : ℤ
  R4 : ℤ
deriving Repr, DecidableEq

/-- The mapping `map_xy_to_formants` (source lines 162–210). -/
def map_xy_to_formants (x_norm y_norm : ℚ) (profile_name : String)
    (brightness_factor resonance_factor : ℚ) : FormantParams :=
  let prof := get_profile_params profile_name
  let F1 := prof.F1_min + (prof.F1_max - prof.F1_min) * y_norm
  let F2 := prof.F2_min + (prof.F2_max - prof.F2_min) * y_norm
  let x_centered := clamp ((x_norm - 1/2) * brightness_factor + 1/2) 0 1
  let F3 := prof.F3_min + (prof.F3_max - prof.F3_min) * x_centered
  let F4 := prof.F4_min + (prof.F4_max - prof.F4_min) * x_centered
  let L1 : ℤ := 55
  let L2 : ℤ := 45
  let L3 := pyround (25 + 15 * x_centered * brightness_factor)
  let L4 := pyround (20 + 10 * x_centered * brightness_factor)
  let base_R : ℤ := 3
  let energy := 1/2 * x_norm + 1/2 * y_norm
  let extra_R := pyround (4 * resonance_factor * energy)
  let R := clamp (base_R + extra_R) 3 7
  ⟨F1, F2, F3, F4, L1, L2, L3, L4, R, R, R, R⟩

/-- Knob encoding `hz_to_knob_value(freq_hz)` (source lines 90–98) at its default
calibration arguments `lo_hz=200, hi_hz=4000, knob_lo=100, knob_hi=3500`,
the only way the source calls it. -/
def hz_to_knob_value (freq_hz : ℚ) : ℤ :=
  let f := clamp freq_hz 200 4000
  let t := (f - 200) / (4000 - 200)
  pyround (100 + t * (3500 - 100))

/-- Everything `apply_voice_from_xy` (source lines 213–274) computes and
sends: encoded formant frequency knobs, levels, resonances and the two
spectral-tilt values. -/
structure VoiceApplyResult where
  kF1 : ℤ
  kF2 : ℤ
  kF3 : ℤ
  kF4 : ℤ
  L1 : ℤ
  L2 : ℤ
  L3 : ℤ
  L4 : ℤ
  R1 : ℤ
  R2 : ℤ
  R3 : ℤ
  R4 : ℤ
  bass : ℤ
  treb : ℤ
deriving Repr, DecidableEq

/-- Model of `apply_voice_from_xy` (source lines 213–274): maps XY to formants,
encodes the frequencies through `hz_to_knob_value`, and derives the global
spectral tilt from `x_norm` scaled by `(0.5 + 0.5 * brightness_factor)`. -/
def apply_voice_from_xy (profile_name : String) (x_norm y_norm : ℚ)
    (brightness_factor resonance_factor : ℚ) : VoiceApplyResult :=
  let params := map_xy_to_formants x_norm y_norm profile_name
    brightness_factor resonance_factor
  let bass_base_left : ℚ := 8
  let bass_base_right : ℚ := 5
  let treb_base_left : ℚ := 4
  let treb_base_right : ℚ := 8
  let bass := pyround (bass_base_right +
    (bass_base_left - bass_base_right) * (1 - x_norm) * (1/2 + 1/2 * brightness_factor))
  let treb := pyround (treb_base_left +
    (treb_base_right - treb_base_left) * x_norm * (1/2 + 1/2 * brightness_factor))
  ⟨hz_to_knob_value params.F1, hz_to_knob_value params.F2,
   hz_to_knob_value params.F3, hz_to_knob_value params.F4,
   params.L1, params.L2, params.L3, params.L4,
   params.R1, params.R2, params.R3, params.R4,
   bass, treb⟩

/-! ## Spectral analyzer

`analyze_wav_profile` (source lines 280–347), starting from the decoded,
amplitude-normalized sample stream (the byte-depth decode of lines 296–309
comes before this point): optional stereo down-mix, Hann window, real FFT,
magnitude spectrum, centroid and low-frequency ratio with the
zero-total-magnitude fallback, and the affine-then-clamp XY mapping.  The
empty-signal `ValueError` (line 316) is modelled as `none`. -/

noncomputable section

open Real Complex in
/-- numpy `np.hanning(n)`: `[0.5 - 0.5*cos(2*pi*j/(n-1)) for j in range(n)]`,
with numpy's special cases `hanning 0 = []` and `hanning 1 = [1]`. -/
def hanning (n : ℕ) : List ℝ :=
  if n = 1 then [1]
  else (List.range n).map (fun j => 1/2 - 1/2 * Real.cos (2 * Real.pi * j / ((n : ℝ) - 1)))

/-- numpy `np.fft.rfft(x)`: the discrete Fourier transform of a real signal,
restricted to the `n/2 + 1` non-negative frequency bins,
`X_k = sum_j x_j * exp(-2*pi*i*k*j/n)`. -/
def rfft (x : List ℝ) : List ℂ :=
  (List.range (x.length / 2 + 1)).map (fun k =>
    ∑ j ∈ Finset.range x.length,
      (x.getD j 0 : ℂ) * Complex.exp (-(2 * Real.pi * Complex.I * k * j / x.length)))

/-- numpy `np.fft.rfftfreq(n, d=1/framerate)`: frequency of bin `k` is
`k * framerate / n`, for `k = 0 .. n/2`. -/
def rfftfreq (n : ℕ) (framerate : ℝ) : List ℝ :=
  (List.range (n / 2 + 1)).map (fun k => k * framerate / n)

/-- Stereo down-mix `data.reshape(-1, 2).mean(axis=1)`: average each consecutive pair of
interleaved stereo samples. -/
def pairMean : List ℝ → List ℝ
  | a :: b :: t => (a + b) / 2 :: pairMean t
  | _ => []

/-- The Hann-windowed signal `x = data * window` (source lines 318–319). -/
def windowed (data : List ℝ) : List ℝ :=
  List.zipWith (· * ·) data (hanning data.length)

/-- Magnitude spectrum `mag = np.abs(np.fft.rfft(x))` (source lines 320–321). -/
def magSpectrum (data : List ℝ) : List ℝ :=
  (rfft (windowed data)).map (fun z => Complex.abs z)

/-- Total magnitude `total = np.sum(mag)` (source line 324). -/
def totalMag (data : List ℝ) : ℝ := (magSpectrum data).sum

/-- Spectral centroid (source lines 325–329): `sum(freqs*mag)/total`, with
the fallback `0.0` when `total <= 0`. -/
def centroidOf (data : List ℝ) (framerate : ℝ) : ℝ :=
  if totalMag data ≤ 0 then 0
  else (List.zipWith (· * ·) (rfftfreq data.length framerate) (magSpectrum data)).sum
    / totalMag data

/-- Low-frequency energy ratio (source lines 325–332): the share of total
magnitude at bins below 1000 Hz, with the fallback `0.5` when
`total <= 0`. -/
def lowRatioOf (data : List ℝ) (framerate : ℝ) : ℝ :=
  if totalMag data ≤ 0 then 0.5
  else (List.zipWith (fun f m => if f < 1000 then m else 0)
      (rfftfreq data.length framerate) (magSpectrum data)).sum / totalMag data

/-- The analyzer's result, in the source's return order
`(x_norm, y_norm, centroid, low_ratio)`. -/
structure WavProfile where
  x_norm : ℝ
  y_norm : ℝ
  centroid : ℝ
  low_ratio : ℝ

/-- Source lines 314–347 applied to the (possibly down-mixed) mono data:
centroid, low ratio, and the calibrated, clamped XY coordinates. -/
def analyzeData (data : List ℝ) (framerate : ℝ) : WavProfile :=
  let centroid := centroidOf data framerate
  let low_ratio := lowRatioOf data framerate
  ⟨clamp ((centroid - 1500) / (4000 - 1500)) 0 1,
   clamp (1 - ( low_ratio - 0.2) / (0.7 - 0.2)) 0 1,
   centroid, low_ratio⟩

/-- Model of `analyze_wav_profile` from the decoded samples on: stereo (and only
stereo, `n_channels == 2`) input is down-mixed by pairwise averaging
(source lines 311–312), an empty signal raises (modelled as `none`), and
the rest is `analyzeData`. -/
def analyze_wav_profile (n_channels : ℕ) (data0 : List ℝ) (framerate : ℝ) :
    Option WavProfile :=
  let data := if n_channels = 2 then pairMean data0 else data0
  if data.length = 0 then none
  else some (analyzeData data framerate)

/-- Modelled from the spec: the claimed down-mix for arbitrary channel
count — "multi-channel input is pre-reduced to mono by averaging channels"
— frame `i` of `n`-channel interleaved data is samples `n*i .. n*i+n-1`,
reduced to their mean.  (The source itself only handles `n_channels == 2`;
this definition follows the spec's words for comparison.) -/
def frameMean (n : ℕ) (l : List ℝ) : List ℝ :=
  (List.range (l.length / n)).map (fun i => ((l.drop (n * i)).take n).sum / n)

end

/-! ## Helper lemmas -/

lemma le_clamp {α : Type} [LinearOrder α] (x lo hi : α) : lo ≤ clamp x lo hi :=
  le_max_left _ _

lemma clamp_le {α : Type} [LinearOrder α] (x lo hi : α) (h : lo ≤ hi) :
    clamp x lo hi ≤ hi :=
  max_le h (min_le_left _ _)

lemma pyround_intCast (n : ℤ) : pyround (n : ℚ) = n := by
  simp [pyround]

/-- Every profile in the catalog has `F1_min ≤ F1_max ≤ F2_min ≤ F2_max`. -/
lemma get_profile_params_bounds (name : String) :
    (get_profile_params name).F1_min ≤ (get_profile_params name).F1_max
    ∧ (get_profile_params name).F1_max ≤ (get_profile_params name).F2_min
    ∧ (get_profile_params name).F2_min ≤ (get_profile_params name).F2_max := by
  simp only [get_profile_params]
  split_ifs <;> norm_num

/-- The lookup `get_profile_params` depends on its argument only through `.lower()`. -/
lemma get_profile_params_congr {n₁ n₂ : String} (h : strLower n₁ = strLower n₂) :
    get_profile_params n₁ = get_profile_params n₂ := by
  unfold get_profile_params
  rw [h]

/-- The mapping depends on the archetype name only through its profile. -/
lemma map_xy_profile_congr {n₁ n₂ : String}
    (h : get_profile_params n₁ = get_profile_params n₂) (x y b r : ℚ) :
    map_xy_to_formants x y n₁ b r = map_xy_to_formants x y n₂ b r := by
  unfold map_xy_to_formants
  rw [h]

/-! ## Claims -/

/-- Claim C6 (confirmed): For every coordinate (x,y) ∈ [0,1]², every archetype name, and
every brightnessFactor, resonanceFactor ∈ [0,1], `map_xy_to_formants`
yields F1 ≤ F2 with F1 and F2 each inside the archetype's declared
[min,max] range, a single resonance value shared identically by all four
formants lying in [3,7] inclusive, and resonanceFactor = 0 forces the
shared resonance to be 3. -/
theorem map_xy_bounds (x y b r : ℚ) (name : String)
    (hx0 : 0 ≤ x) (hx1 : x ≤ 1) (hy0 : 0 ≤ y) (hy1 : y ≤ 1)
    (hb0 : 0 ≤ b) (hb1 : b ≤ 1) (hr0 : 0 ≤ r) (hr1 : r ≤ 1) :
    (map_xy_to_formants x y name b r).F1 ≤ (map_xy_to_formants x y name b r).F2
    ∧ (get_profile_params name).F1_min ≤ (map_xy_to_formants x y name b r).F1
    ∧ (map_xy_to_formants x y name b r).F1 ≤ (get_profile_params name).F1_max
    ∧ (get_profile_params name).F2_min ≤ (map_xy_to_formants x y name b r).F2
    ∧ (map_xy_to_formants x y name b r).F2 ≤ (get_profile_params name).F2_max
    ∧ (map_xy_to_formants x y name b r).R1 = (map_xy_to_formants x y name b r).R2
    ∧ (map_xy_to_formants x y name b r).R2 = (map_xy_to_formants x y name b r).R3
    ∧ (map_xy_to_formants x y name b r).R3 = (map_xy_to_formants x y name b r).R4
    ∧ 3 ≤ (map_xy_to_formants x y name b r).R1
    ∧ (map_xy_to_formants x y name b r).R1 ≤ 7
    ∧ (r = 0 → (map_xy_to_formants x y name b r).R1 = 3) := by
  obtain ⟨h11, h12, h22⟩ := get_profile_params_bounds name
  refine ⟨?_, ?_, ?_, ?_, ?_, rfl, rfl, rfl, ?_, ?_, ?_⟩
  · simp only [map_xy_to_formants]
    nlinarith [mul_nonneg (sub_nonneg.2 h11) hy0,
      mul_nonneg (sub_nonneg.2 h11) (sub_nonneg.2 hy1),
      mul_nonneg (sub_nonneg.2 h22) hy0]
  · simp only [map_xy_to_formants]
    nlinarith [mul_nonneg (sub_nonneg.2 h11) hy0]
  · simp only [map_xy_to_formants]
    nlinarith [mul_nonneg (sub_nonneg.2 h11) (sub_nonneg.2 hy1)]
  · simp only [map_xy_to_formants]
    nlinarith [mul_nonneg (sub_nonneg.2 h22) hy0]
  · simp only [map_xy_to_formants]
    nlinarith [mul_nonneg (sub_nonneg.2 h22) (sub_nonneg.2 hy1)]
  · simp only [map_xy_to_formants]
    exact le_clamp _ _ _
  · simp only [map_xy_to_formants]
    exact clamp_le _ _ _ (by norm_num)
  · intro hr
    subst hr
    simp only [map_xy_to_formants]
    norm_num [clamp, pyround]

/-- Witness for C6 at (x,y) = (1/2, 1/2), name "Tenor", b = r = 1/2. -/
theorem map_xy_bounds_witness :
    (map_xy_to_formants (1/2) (1/2) "Tenor" (1/2) (1/2)).F1
      ≤ (map_xy_to_formants (1/2) (1/2) "Tenor" (1/2) (1/2)).F2
    ∧ (get_profile_params "Tenor").F1_min
      ≤ (map_xy_to_formants (1/2) (1/2) "Tenor" (1/2) (1/2)).F1
    ∧ (map_xy_to_formants (1/2) (1/2) "Tenor" (1/2) (1/2)).F1
      ≤ (get_profile_params "Tenor").F1_max
    ∧ (get_profile_params "Tenor").F2_min
      ≤ (map_xy_to_formants (1/2) (1/2) "Tenor" (1/2) (1/2)).F2
    ∧ (map_xy_to_formants (1/2) (1/2) "Tenor" (1/2) (1/2)).F2
      ≤ (get_profile_params "Tenor").F2_max
    ∧ (map_xy_to_formants (1/2) (1/2) "Tenor" (1/2) (1/2)).R1
      = (map_xy_to_formants (1/2) (1/2) "Tenor" (1/2) (1/2)).R2
    ∧ (map_xy_to_formants (1/2) (1/2) "Tenor" (1/2) (1/2)).R2
      = (map_xy_to_formants (1/2) (1/2) "Tenor" (1/2) (1/2)).R3
    ∧ (map_xy_to_formants (1/2) (1/2) "Tenor" (1/2) (1/2)).R3
      = (map_xy_to_formants (1/2) (1/2) "Tenor" (1/2) (1/2)).R4
    ∧ 3 ≤ (map_xy_to_formants (1/2) (1/2) "Tenor" (1/2) (1/2)).R1
    ∧ (map_xy_to_formants (1/2) (1/2) "Tenor" (1/2) (1/2)).R1 ≤ 7
    ∧ ((1:ℚ)/2 = 0 → (map_xy_to_formants (1/2) (1/2) "Tenor" (1/2) (1/2)).R1 = 3) :=
  map_xy_bounds (1/2) (1/2) (1/2) (1/2) "Tenor"
    (by norm_num) (by norm_num) (by norm_num) (by norm_num)
    (by norm_num) (by norm_num) (by norm_num) (by norm_num)

/-- Claim C7 (confirmed): For every coordinate (x,y) ∈ [0,1]² and intensity scalars in
[0,1], an archetype name matching none of the known names under
case-insensitive comparison yields exactly the parameters of "Neutral",
and archetype names are matched case-insensitively (two names with the
same `.lower()` image yield identical parameters). -/
theorem unknown_archetype_neutral (x y b r : ℚ) (name n₁ n₂ : String)
    (hx0 : 0 ≤ x) (hx1 : x ≤ 1) (hy0 : 0 ≤ y) (hy1 : y ≤ 1)
    (hb0 : 0 ≤ b) (hb1 : b ≤ 1) (hr0 : 0 ≤ r) (hr1 : r ≤ 1)
    (hunk : strLower name ∉ ["bass", "baritone", "tenor", "alto", "mezzo", "soprano"])
    (hcase : strLower n₁ = strLower n₂) :
    map_xy_to_formants x y name b r = map_xy_to_formants x y "Neutral" b r
    ∧ map_xy_to_formants x y n₁ b r = map_xy_to_formants x y n₂ b r := by
  constructor
  · refine map_xy_profile_congr ?_ x y b r
    simp only [List.mem_cons, List.not_mem_nil, or_false] at hunk
    push_neg at hunk
    obtain ⟨e1, e2, e3, e4, e5, e6⟩ := hunk
    simp only [get_profile_params]
    rw [if_neg e1, if_neg e2, if_neg e3, if_neg e4, if_neg e5, if_neg e6,
      if_neg (by decide), if_neg (by decide), if_neg (by decide),
      if_neg (by decide), if_neg (by decide), if_neg (by decide)]
  · exact map_xy_profile_congr (get_profile_params_congr hcase) x y b r

/-- Witness for C7 at name "Countertenor" (unknown) and the pair
("TENOR", "Tenor") (case-insensitive match), x = y = b = r = 1/2. -/
theorem unknown_archetype_neutral_witness :
    map_xy_to_formants (1/2) (1/2) "Countertenor" (1/2) (1/2)
      = map_xy_to_formants (1/2) (1/2) "Neutral" (1/2) (1/2)
    ∧ map_xy_to_formants (1/2) (1/2) "TENOR" (1/2) (1/2)
      = map_xy_to_formants (1/2) (1/2) "Tenor" (1/2) (1/2) :=
  unknown_archetype_neutral (1/2) (1/2) (1/2) (1/2) "Countertenor" "TENOR" "Tenor"
    (by norm_num) (by norm_num) (by norm_num) (by norm_num)
    (by norm_num) (by norm_num) (by norm_num) (by norm_num)
    (by decide) (by decide)

/-- Claim C8 (confirmed): For every coordinate (x,y) ∈ [0,1]² and every archetype,
brightnessFactor = 0 pins the re-centered horizontal coordinate to 0.5, so
F3 and F4 are exactly the midpoints of the archetype's F3 and F4 ranges,
independently of x. -/
theorem brightness_zero_midpoint (x y r : ℚ) (name : String)
    (hx0 : 0 ≤ x) (hx1 : x ≤ 1) (hy0 : 0 ≤ y) (hy1 : y ≤ 1)
    (hr0 : 0 ≤ r) (hr1 : r ≤ 1) :
    (map_xy_to_formants x y name 0 r).F3
      = ((get_profile_params name).F3_min + (get_profile_params name).F3_max) / 2
    ∧ (map_xy_to_formants x y name 0 r).F4
      = ((get_profile_params name).F4_min + (get_profile_params name).F4_max) / 2 := by
  have hc : clamp ((x - 1/2) * 0 + 1/2) (0:ℚ) 1 = 1/2 := by
    norm_num [clamp]
  constructor <;>
    · simp only [map_xy_to_formants, hc]
      ring

/-- Witness for C8 at (x,y) = (1, 1/2), name "Soprano", r = 1/2. -/
theorem brightness_zero_midpoint_witness :
    (map_xy_to_formants 1 (1/2) "Soprano" 0 (1/2)).F3
      = ((get_profile_params "Soprano").F3_min + (get_profile_params "Soprano").F3_max) / 2
    ∧ (map_xy_to_formants 1 (1/2) "Soprano" 0 (1/2)).F4
      = ((get_profile_params "Soprano").F4_min + (get_profile_params "Soprano").F4_max) / 2 :=
  brightness_zero_midpoint 1 (1/2) (1/2) "Soprano"
    (by norm_num) (by norm_num) (by norm_num) (by norm_num)
    (by norm_num) (by norm_num)

/-- Claim C9 (confirmed): For every x ∈ [0,1] and brightnessFactor ∈ [0,1] (and any
register coordinate, archetype and resonanceFactor), the spectral-tilt
outputs are bass = round(5 + 3·(1−x)·(0.5 + 0.5·b)) and
treb = round(4 + 4·x·(0.5 + 0.5·b)); with b = 1 they collapse to
(bass, treb) = (8, 4) at x = 0 and (5, 8) at x = 1. -/
theorem tilt_formulas (name : String) (x y b r : ℚ)
    (hx0 : 0 ≤ x) (hx1 : x ≤ 1) (hb0 : 0 ≤ b) (hb1 : b ≤ 1) :
    (apply_voice_from_xy name x y b r).bass
      = pyround (5 + 3 * (1 - x) * (1/2 + 1/2 * b))
    ∧ (apply_voice_from_xy name x y b r).treb
      = pyround (4 + 4 * x * (1/2 + 1/2 * b))
    ∧ (apply_voice_from_xy name 0 y 1 r).bass = 8
    ∧ (apply_voice_from_xy name 0 y 1 r).treb = 4
    ∧ (apply_voice_from_xy name 1 y 1 r).bass = 5
    ∧ (apply_voice_from_xy name 1 y 1 r).treb = 8 := by
  refine ⟨?_, ?_, ?_, ?_, ?_, ?_⟩ <;> simp only [apply_voice_from_xy]
  · congr 1
    ring
  · congr 1
    ring
  · norm_num [pyround]
  · norm_num [pyround]
  · norm_num [pyround]
  · norm_num [pyround]

/-- Witness for C9 at name "Alto", (x,y) = (1/4, 1/2), b = 1/2, r = 1/2. -/
theorem tilt_formulas_witness :
    (apply_voice_from_xy "Alto" (1/4) (1/2) (1/2) (1/2)).bass
      = pyround (5 + 3 * (1 - 1/4) * (1/2 + 1/2 * (1/2)))
    ∧ (apply_voice_from_xy "Alto" (1/4) (1/2) (1/2) (1/2)).treb
      = pyround (4 + 4 * (1/4) * (1/2 + 1/2 * (1/2)))
    ∧ (apply_voice_from_xy "Alto" 0 (1/2) 1 (1/2)).bass = 8
    ∧ (apply_voice_from_xy "Alto" 0 (1/2) 1 (1/2)).treb = 4
    ∧ (apply_voice_from_xy "Alto" 1 (1/2) 1 (1/2)).bass = 5
    ∧ (apply_voice_from_xy "Alto" 1 (1/2) 1 (1/2)).treb = 8 :=
  tilt_formulas "Alto" (1/4) (1/2) (1/2) (1/2)
    (by norm_num) (by norm_num) (by norm_num) (by norm_num)

/-- Claim C4, counterexample: The claim says a throttled dispatch whose
transmission fails leaves the timestamp unchanged.  In the code
`_last_update_time = now` is executed *before* the `subprocess.run`, so at
`now = 1000`, `last = 0` with a failing send the update is accepted, the
device receives nothing, and yet the timestamp moves from 0 to 1000. -/
theorem failed_send_updates_timestamp :
    (run_dlin_knob 1000 false 0).accepted = true
    ∧ (run_dlin_knob 1000 false 0).delivered = false
    ∧ (run_dlin_knob 1000 false 0).last ≠ 0 := by
  norm_num [run_dlin_knob, UPDATE_INTERVAL_MS]

/-- Claim C4, amended: The throttle timestamp holds the time of the last
*accepted* throttled dispatch, whether or not its transmission succeeded:
an accepted call sets it to `now` (before the send, so a failed send still
delays the next acceptance), a rejected call leaves it unchanged, and both
the timestamp and the accept decision are independent of the send
outcome. -/
theorem throttle_timestamp_ignores_send_outcome (now last : ℚ) (ok : Bool) :
    (run_dlin_knob now ok last).last
      = (if (now - last) * 1000 < UPDATE_INTERVAL_MS then last else now)
    ∧ (run_dlin_knob now ok last).last = (run_dlin_knob now true last).last
    ∧ (run_dlin_knob now ok last).accepted = (run_dlin_knob now true last).accepted := by
  unfold run_dlin_knob
  split <;> simp

/-- Claim C5 (confirmed): Every immediate-channel command (`run_dlin`: dump, pump, copy)
is forwarded to the device unconditionally: in any dispatch sequence,
whatever the throttle timestamp and however recently or frequently any
dispatch occurred, the forwarded flag of every immediate call is true. -/
theorem immediate_never_dropped (evs : List DEvent) (s0 : ℚ) (i : ℕ)
    (hi : i < evs.length) (himm : (evs.getD i (.knob 0 "")).isImm = true) :
    (dispatchTrace evs s0).1.getD i false = true := by
  induction evs generalizing s0 i with
  | nil => simp at hi
  | cons e es ih =>
    cases i with
    | zero =>
      cases e with
      | imm a => simp [dispatchTrace, dispatchStep, run_dlin]
      | knob t p => simp [DEvent.isImm] at himm
    | succ j =>
      simp only [dispatchTrace, List.getD_cons_succ]
      exact ih ((dispatchStep e s0).2) j (by simpa using hi)
        (by simpa using himm)

/-- Witness for C5: a knob call at time 0 (throttle fresh), then an
immediate dump; the immediate call (index 1) is forwarded. -/
theorem immediate_never_dropped_witness :
    (dispatchTrace [DEvent.knob 0 "0f:2:100", DEvent.imm ["dump"]] 0).1.getD 1 false
      = true :=
  immediate_never_dropped [DEvent.knob 0 "0f:2:100", DEvent.imm ["dump"]] 0 1
    (by decide) (by decide)

/-- Claim C10 (confirmed): Immediate commands never modify the throttle timestamp: for
every dispatch sequence, deleting the immediate events changes neither the
final `_last_update_time` nor any throttled call's forwarded flag — so an
immediate command never causes a later throttled update to be dropped. -/
theorem immediate_preserves_throttle_state (evs : List DEvent) (s0 : ℚ) :
    (dispatchTrace (evs.filter (fun e => !e.isImm)) s0).2 = (dispatchTrace evs s0).2
    ∧ (dispatchTrace (evs.filter (fun e => !e.isImm)) s0).1
      = ((evs.zip (dispatchTrace evs s0).1).filter (fun p => !p.1.isImm)).map
          Prod.snd := by
  induction evs generalizing s0 with
  | nil => simp [dispatchTrace]
  | cons e es ih =>
    cases e with
    | imm a =>
      have h := ih s0
      simp only [List.filter_cons, DEvent.isImm, Bool.not_true, dispatchTrace,
        dispatchStep, List.zip_cons_cons, Bool.false_eq_true, if_false]
      exact ⟨h.1, h.2⟩
    | knob t p =>
      have h := ih ((run_dlin_knob t true s0).last)
      simp only [List.filter_cons, DEvent.isImm, Bool.not_false, dispatchTrace,
        dispatchStep, List.zip_cons_cons, if_true]
      exact ⟨h.1, by simp only [List.map_cons]; exact congrArg _ h.2⟩

/-! ### The 10 ms burst (claim C2) -/

lemma knobBurst_append (ts₁ ts₂ : List ℚ) (s : ℚ) :
    knobBurst (ts₁ ++ ts₂) s
      = ((knobBurst ts₁ s).1 ++ (knobBurst ts₂ (knobBurst ts₁ s).2).1,
         (knobBurst ts₂ (knobBurst ts₁ s).2).2) := by
  induction ts₁ generalizing s with
  | nil => simp [knobBurst]
  | cons t ts ih => simp [knobBurst, ih]

lemma burstTimes_succ (N : ℕ) (t0 : ℚ) :
    burstTimes (N + 1) t0 = burstTimes N t0 ++ [t0 + N / 100] := by
  simp [burstTimes, List.range_succ]

/-- Closed form of a 10 ms-spaced burst against the 150 ms throttle,
starting idle: call `i` is accepted exactly when `15 ∣ i`, and the
timestamp tracks the last accepted call. -/
lemma knobBurst_burstTimes (t0 s0 : ℚ)
    (hidle : UPDATE_INTERVAL_MS ≤ (t0 - s0) * 1000) :
    ∀ N, 1 ≤ N →
      knobBurst (burstTimes N t0) s0
        = ((List.range N).map (fun i => decide (i % 15 = 0)),
           t0 + ((15 * ((N - 1) / 15) : ℕ) : ℚ) / 100) := by
  intro N hN
  induction N, hN using Nat.le_induction with
  | base =>
    have hcond : ¬ ((t0 + (0:ℕ) / 100 - s0) * 1000 < UPDATE_INTERVAL_MS) := by
      push_cast
      rw [not_lt]
      calc UPDATE_INTERVAL_MS ≤ (t0 - s0) * 1000 := hidle
        _ = (t0 + 0 / 100 - s0) * 1000 := by ring
    simp only [burstTimes, List.range_succ, List.range_zero, List.nil_append,
      List.map_cons, List.map_nil, knobBurst, run_dlin_knob, if_neg hcond]
    norm_num
  | succ N hN ih =>
    rw [burstTimes_succ, knobBurst_append, ih]
    have hj : 15 * ((N - 1) / 15) ≤ N - 1 := by omega
    by_cases hmod : N % 15 = 0
    · have hNj : N = 15 * ((N - 1) / 15) + 15 := by omega
      have hcast : (N : ℚ) = ((15 * ((N - 1) / 15) : ℕ) : ℚ) + 15 := by
        exact_mod_cast congrArg (Nat.cast : ℕ → ℚ) hNj
      have hcond : ¬ ((t0 + (N : ℚ) / 100
          - (t0 + ((15 * ((N - 1) / 15) : ℕ) : ℚ) / 100)) * 1000
            < UPDATE_INTERVAL_MS) := by
        rw [UPDATE_INTERVAL_MS, hcast, not_lt]
        ring_nf
        norm_num
      have h15 : 15 * ((N + 1 - 1) / 15) = N := by omega
      simp only [knobBurst, run_dlin_knob, if_neg hcond, List.range_succ,
        List.map_append, List.map_cons, List.map_nil, h15, hmod]
      norm_num
    · have hNj : N = 15 * ((N - 1) / 15) + N % 15 := by omega
      have hm14 : N % 15 ≤ 14 := by omega
      have hcast : (N : ℚ) = ((15 * ((N - 1) / 15) : ℕ) : ℚ) + ((N % 15 : ℕ) : ℚ) := by
        exact_mod_cast congrArg (Nat.cast : ℕ → ℚ) hNj
      have hm14' : ((N % 15 : ℕ) : ℚ) ≤ 14 := by exact_mod_cast hm14
      have hcond : (t0 + (N : ℚ) / 100
          - (t0 + ((15 * ((N - 1) / 15) : ℕ) : ℚ) / 100)) * 1000
            < UPDATE_INTERVAL_MS := by
        rw [UPDATE_INTERVAL_MS, hcast]
        nlinarith [hm14']
      have h15 : 15 * ((N + 1 - 1) / 15) = 15 * ((N - 1) / 15) := by omega
      simp only [knobBurst, run_dlin_knob, if_pos hcond, List.range_succ,
        List.map_append, List.map_cons, List.map_nil, h15, hmod]
      simp [hmod]

/-- In `range N` exactly `⌈N/15⌉ = (N+14)/15` indices are multiples of 15. -/
lemma count_accepted_burst (N : ℕ) :
    ((List.range N).map (fun i => decide (i % 15 = 0))).count true = (N + 14) / 15 := by
  induction N with
  | zero => simp
  | succ n ih =>
    rw [List.range_succ, List.map_append, List.count_append, ih]
    by_cases h : n % 15 = 0 <;> simp [h] <;> omega

/-- Claim C2 (confirmed): For every burst of N ≥ 1 throttled calls spaced exactly 10 ms
apart starting from an idle throttle, at most ⌈N·10/150⌉ of the calls are
forwarded, the first call is always forwarded, and call `i` is forwarded
exactly when 150 ms have elapsed since the last accepted send — at this
spacing, exactly when `i` is a multiple of 15. -/
theorem throttle_burst_bound (N : ℕ) (t0 s0 : ℚ) (hN : 1 ≤ N)
    (hidle : UPDATE_INTERVAL_MS ≤ (t0 - s0) * 1000) :
    (knobBurst (burstTimes N t0) s0).1.count true ≤ (10 * N + 149) / 150
    ∧ (knobBurst (burstTimes N t0) s0).1.getD 0 false = true
    ∧ (knobBurst (burstTimes N t0) s0).1
      = (List.range N).map (fun i => decide (i % 15 = 0)) := by
  have hflags := congrArg Prod.fst (knobBurst_burstTimes t0 s0 hidle N hN)
  refine ⟨?_, ?_, hflags⟩
  · rw [hflags, count_accepted_burst]
    omega
  · rw [hflags]
    obtain ⟨M, rfl⟩ : ∃ M, N = M + 1 := ⟨N - 1, by omega⟩
    rw [List.range_succ_eq_map]
    simp

/-- Witness for C2 at N = 16, t0 = 1000 s, s0 = 0 (idle). -/
theorem throttle_burst_bound_witness :
    (knobBurst (burstTimes 16 1000) 0).1.count true ≤ (10 * 16 + 149) / 150
    ∧ (knobBurst (burstTimes 16 1000) 0).1.getD 0 false = true
    ∧ (knobBurst (burstTimes 16 1000) 0).1
      = (List.range 16).map (fun i => decide (i % 15 = 0)) :=
  throttle_burst_bound 16 1000 0 (by norm_num)
    (by norm_num [UPDATE_INTERVAL_MS])

/-! ### Spectral analyzer claims (C1, C3) -/

lemma all_zero_getD (x : List ℝ) (h : ∀ a ∈ x, a = 0) (j : ℕ) : x.getD j 0 = 0 := by
  induction x generalizing j with
  | nil => simp
  | cons a t ih =>
    cases j with
    | zero => simpa using h a (by simp)
    | succ k =>
      simp only [List.getD_cons_succ]
      exact ih (fun b hb => h b (by simp [hb])) k

lemma zipWith_mul_all_zero :
    ∀ (l w : List ℝ), (∀ a ∈ l, a = 0) → ∀ b ∈ List.zipWith (· * ·) l w, b = 0
  | [], _, _ => by simp
  | _ :: _, [], _ => by simp
  | a :: t, c :: w, h => by
    intro b hb
    simp only [List.zipWith_cons_cons, List.mem_cons] at hb
    rcases hb with rfl | hb
    · rw [h a (by simp)]
      ring
    · exact zipWith_mul_all_zero t w (fun u hu => h u (by simp [hu])) b hb

lemma windowed_all_zero {data : List ℝ} (h : ∀ a ∈ data, a = 0) :
    ∀ b ∈ windowed data, b = 0 :=
  zipWith_mul_all_zero data (hanning data.length) h

lemma magSpectrum_all_zero {data : List ℝ} (h : ∀ a ∈ windowed data, a = 0) :
    ∀ m ∈ magSpectrum data, m = 0 := by
  intro m hm
  simp only [magSpectrum, rfft, List.mem_map, List.mem_range] at hm
  obtain ⟨z, ⟨k, _, rfl⟩, rfl⟩ := hm
  rw [Finset.sum_eq_zero, map_zero]
  intro j _
  rw [all_zero_getD _ h j]
  simp

lemma totalMag_eq_zero {data : List ℝ} (h : ∀ a ∈ windowed data, a = 0) :
    totalMag data = 0 :=
  List.sum_eq_zero (magSpectrum_all_zero h)

/-- Degenerate-signal fallback: when the windowed signal vanishes, the
analyzer returns the documented neutral values. -/
lemma analyzeData_fallback (data : List ℝ) (rate : ℝ)
    (h : ∀ a ∈ windowed data, a = 0) :
    analyzeData data rate = ⟨0, 0.4, 0, 0.5⟩ := by
  have ht := totalMag_eq_zero h
  simp only [analyzeData, centroidOf, lowRatioOf, ht]
  norm_num [clamp, WavProfile.mk.injEq, min_def, max_def]

/-- Claim C1 (confirmed): For every all-zero input signal of length N > 0, at any sample
rate, the analyzer returns centroid = 0.0, low-frequency ratio = 0.5,
x_norm = 0.0 and y_norm = 0.4 = clamp(1 − (0.5−0.2)/0.5, 0, 1) exactly. -/
theorem analyze_silence_profile (sig : List ℝ) (rate : ℝ)
    (h0 : sig ≠ []) (hz : ∀ a ∈ sig, a = 0) :
    analyze_wav_profile 1 sig rate = some ⟨0, 0.4, 0, 0.5⟩ := by
  have hlen : ¬ (sig.length = 0) := by simpa [List.length_eq_zero] using h0
  simp only [analyze_wav_profile, show ¬((1:ℕ) = 2) from by norm_num, if_false,
    if_neg hlen]
  rw [analyzeData_fallback sig rate (windowed_all_zero hz)]

/-- Witness for C1: three samples of silence at 44100 Hz. -/
theorem analyze_silence_profile_witness :
    analyze_wav_profile 1 [0, 0, 0] 44100 = some ⟨0, 0.4, 0, 0.5⟩ :=
  analyze_silence_profile [0, 0, 0] 44100 (by simp) (by simp)

lemma hanning_three : hanning 3 = [0, 1, 0] := by
  simp only [hanning]
  norm_num [List.range_succ]

lemma windowed_triple : windowed [(1:ℝ), 0, 0] = [0, 0, 0] := by
  rw [windowed, show ([(1:ℝ), 0, 0]).length = 3 from rfl, hanning_three]
  norm_num

lemma frameMean_triple : frameMean 3 [(1:ℝ), 0, 0] = [1/3] := by
  norm_num [frameMean, List.range_succ]

lemma windowed_single : windowed [(1:ℝ)/3] = [1/3] := by
  rw [windowed, show ([(1:ℝ)/3]).length = 1 from rfl]
  simp [hanning]

lemma magSpectrum_single : magSpectrum [(1:ℝ)/3] = [1/3] := by
  rw [magSpectrum, windowed_single, rfft,
    show ([(1:ℝ)/3]).length = 1 from rfl]
  norm_num [List.range_succ, Finset.sum_range_one, Complex.exp_zero]

/-- Full evaluation of the analyzer on the single-sample signal [1/3]:
the lone spectral bin sits at 0 Hz, so the centroid is 0 and the entire
magnitude is low-frequency (ratio 1), giving y_norm = 0. -/
lemma analyzeData_single : analyzeData [(1:ℝ)/3] 8000 = ⟨0, 0, 0, 1⟩ := by
  have htot : totalMag [(1:ℝ)/3] = 1/3 := by
    rw [totalMag, magSpectrum_single]
    norm_num
  have hfreq : rfftfreq ([(1:ℝ)/3]).length 8000 = [0] := by
    rw [show ([(1:ℝ)/3]).length = 1 from rfl, rfftfreq]
    norm_num [List.range_succ]
  simp only [analyzeData, centroidOf, lowRatioOf, htot, hfreq, magSpectrum_single]
  norm_num [clamp, WavProfile.mk.injEq, min_def, max_def]

/-- Claim C3, counterexample: The claim says any channel count ≥ 2 is
down-mixed by per-frame channel averaging.  The source only down-mixes
`n_channels == 2`: a 3-channel single frame [1,0,0] is analyzed as a
3-sample signal (whose Hann window zeroes it out, giving the neutral
fallback with low_ratio 0.5), while the per-frame average [1/3] analyzes
to low_ratio 1 — different profiles. -/
theorem multichannel_downmix_counterexample :
    (3:ℕ) ≥ 2
    ∧ analyze_wav_profile 3 [1, 0, 0] 8000 = some ⟨0, 0.4, 0, 0.5⟩
    ∧ analyze_wav_profile 1 (frameMean 3 [1, 0, 0]) 8000 = some ⟨0, 0, 0, 1⟩
    ∧ analyze_wav_profile 3 [1, 0, 0] 8000
        ≠ analyze_wav_profile 1 (frameMean 3 [1, 0, 0]) 8000 := by
  have h1 : analyze_wav_profile 3 [(1:ℝ), 0, 0] 8000 = some ⟨0, 0.4, 0, 0.5⟩ := by
    simp only [analyze_wav_profile, show ¬((3:ℕ) = 2) from by norm_num, if_false]
    rw [if_neg (by norm_num), analyzeData_fallback _ 8000 (by
      rw [windowed_triple]
      simp)]
  have h2 : analyze_wav_profile 1 (frameMean 3 [(1:ℝ), 0, 0]) 8000
      = some ⟨0, 0, 0, 1⟩ := by
    rw [frameMean_triple]
    simp only [analyze_wav_profile, show ¬((1:ℕ) = 2) from by norm_num, if_false]
    rw [if_neg (by norm_num), analyzeData_single]
  refine ⟨by norm_num, h1, h2, ?_⟩
  rw [h1, h2]
  simp only [ne_eq, Option.some.injEq, WavProfile.mk.injEq]
  norm_num

/-- The spec-modelled `frameMean 2` coincides with the source's stereo pairwise average. -/
lemma frameMean_two_eq_pairMean : ∀ l : List ℝ, frameMean 2 l = pairMean l
  | [] => by simp [frameMean, pairMean]
  | [a] => by simp [frameMean, pairMean]
  | a :: b :: t => by
    have ih := frameMean_two_eq_pairMean t
    rw [pairMean, ← ih]
    rw [frameMean, frameMean]
    have hlen : (a :: b :: t).length / 2 = t.length / 2 + 1 := by
      simp only [List.length_cons]
      omega
    rw [hlen, List.range_succ_eq_map, List.map_cons, List.map_map]
    congr 1
    show ([a, b] : List ℝ).sum / ((2:ℕ) : ℝ) = (a + b) / 2
    norm_num

/-- Claim C3, amended: Only two-channel input is down-mixed: for every
2-channel interleaved input of even positive length, the analyzer's
profile equals the profile of the per-frame channel average.  (For
channel counts ≥ 3 the source performs no down-mix, as the counterexample
shows.) -/
theorem stereo_downmix_profile (data : List ℝ) (rate : ℝ)
    (h0 : data ≠ []) (h2 : 2 ∣ data.length) :
    analyze_wav_profile 2 data rate
      = analyze_wav_profile 1 (frameMean 2 data) rate := by
  rw [frameMean_two_eq_pairMean]
  simp [analyze_wav_profile]

/-- Witness for C3's amended claim: a one-frame stereo signal. -/
theorem stereo_downmix_profile_witness :
    analyze_wav_profile 2 [1, 0] 8000
      = analyze_wav_profile 1 (frameMean 2 [1, 0]) 8000 :=
  stereo_downmix_profile [1, 0] 8000 (by simp) (by norm_num)

end DLev
